import Mathlib

/-!
Verification of the ai-chatbot-hub backend (a FastAPI/SQLModel multi-tenant
AI-assistant backend) against its natural-language specification.

The Python source is embedded shallowly:
- Python ints (credits, costs) become `Int`;
- UTC timestamps become `Int` epoch values, paired with a timezone-awareness
  flag where the source inspects `tzinfo`;
- Python strings handled character-wise (email tagging) become `List Char`,
  opaque identifiers become `String`;
- database rows become structures, sessions become explicit state passing,
  and an endpoint that can raise `HTTPException` (or a `TypeError`) returns
  `Except`.
-/

namespace Backend

/-- A stored user row (`app/models/database/user.py`). Only the fields the
verified operations read are carried. The source declares `credit` with
`ge=0`, but SQLModel `table=True` classes skip validation on instantiation,
so the field is a plain `Int` here. Emails are `List Char` because the
tagging scheme manipulates them character-wise. -/
structure User where
  id : String
  application_id : String
  email : List Char
  credit : Int
  is_premium : Bool
  is_active : Bool
  is_verified : Bool
  deriving Repr, DecidableEq

/-- `crud.decrease_user_credit` (`app/crud.py:128-133`): unguarded
`user.credit -= amount`, committed to the store. -/
def decrease_user_credit (user : User) (amount : Int) : User :=
  { user with credit := user.credit - amount }

/-- `ChatBusinessLogic.calculate_credit_cost`
(`app/core/chat_business_logic.py:89-104`): `base_cost = 2 if has_sources
else 1; return base_cost`. The source takes no translation input; its
docstring notes translation is "not used for cost calculation". -/
def calculate_credit_cost (has_sources : Bool) : Int :=
  if has_sources then 2 else 1

/-- Modelled from the spec: `cost(operation_kind, had_sources,
needed_translation)` — "base 1, +1 if the operation returned retrieval
sources, +1 if input required translation" (spec §4.5). Stated only to be
compared against `calculate_credit_cost`. -/
def cost_spec (had_sources needed_translation : Bool) : Int :=
  1 + (if had_sources then 1 else 0) + (if needed_translation then 1 else 0)

/-- `ChatBusinessLogic.process_credit_deduction`
(`app/core/chat_business_logic.py:106-142`). Returns the persisted user
together with the `(remaining_credit, is_credit_sufficient)` pair the source
returns. Total: the source raises nothing on insufficient funds. -/
def process_credit_deduction (user : User) (credit_cost : Int) :
    User × Int × Bool :=
  if user.is_premium then
    (user, user.credit, true)
  else
    let deduction_amount := min user.credit credit_cost
    let is_credit_sufficient := decide (credit_cost ≤ user.credit)
    if 0 < deduction_amount then
      let updated_user := decrease_user_credit user deduction_amount
      (updated_user, updated_user.credit, is_credit_sufficient)
    else
      (user, user.credit, is_credit_sufficient)

/-- The chat endpoint's inline deduction block
(`app/api/routes/chat.py:41-73`): for premium users the block is skipped and
the initial flags `(user.credit, True)` stand; otherwise
`credit_cost = 2 if sources else 1`, then either a partial deduction of the
whole balance (insufficient) or a full deduction (sufficient). -/
def chat_endpoint_credit (user : User) (sources : Bool) : User × Int × Bool :=
  if user.is_premium then
    (user, user.credit, true)
  else
    let credit_cost : Int := if sources then 2 else 1
    if user.credit < credit_cost then
      if 0 < user.credit then
        (decrease_user_credit user user.credit, 0, false)
      else
        (user, user.credit, false)
    else
      let updated := decrease_user_credit user credit_cost
      (updated, updated.credit, true)

/-- The decoded claim set of a JWT issued by `app/core/security/tokens.py`:
`{"exp": expire, "sub": str(subject), "app": str(application_id)}`. `sub`
and `app` are `Option` because `jwt.decode` on a foreign token and
`payload.get(...)` can yield `None`. -/
structure TokenClaims where
  exp : Int
  sub : Option String
  app : Option String
  deriving Repr, DecidableEq

/-- `create_access_token` (`app/core/security/tokens.py:16-31`). -/
def create_access_token (subject : String) (application_id : String)
    (expire : Int) : TokenClaims :=
  ⟨expire, some subject, some application_id⟩

/-- `create_refresh_token` (`app/core/security/tokens.py:34-49`): the source
duplicates `create_access_token` verbatim. -/
def create_refresh_token (subject : String) (application_id : String)
    (expire : Int) : TokenClaims :=
  ⟨expire, some subject, some application_id⟩

/-- The errors raised by token validation (`app/api/deps.py`,
`app/api/routes/auth.py`): each constructor is one `HTTPException` detail. -/
inductive AuthError where
  | invalidToken
  | invalidTokenForApplication
  | userNotFound
  | inactiveUser
  | accountNotVerified
  deriving Repr, DecidableEq

/-- `get_current_user` (`app/api/deps.py:69-112`). `now` drives the
signature-library expiry check (`ExpiredSignatureError` is an
`InvalidTokenError`, caught as `invalid_token`); `lookup` is the store query
`select(User).where(User.id == token_data.sub, User.application_id ==
current_application.id)`. Python's `not token_data.app` is falsy for both
`None` and the empty string. -/
def get_current_user (token : TokenClaims) (now : Int)
    (current_application_id : String)
    (lookup : Option String → String → Option User) : Except AuthError User :=
  if token.exp < now then .error .invalidToken
  else
    match token.app with
    | none => .error .invalidTokenForApplication
    | some appClaim =>
      if appClaim = "" then .error .invalidTokenForApplication
      else if current_application_id ≠ appClaim then
        .error .invalidTokenForApplication
      else
        match lookup token.sub current_application_id with
        | none => .error .userNotFound
        | some user =>
          if user.is_active = false then .error .inactiveUser
          else .ok user

/-- `refresh_access_token` (`app/api/routes/auth.py:212-319`). The tenant
check `token_app_id != str(application.id)` runs before the `sub` check and
before any user query; `None != str(...)` is also a mismatch. The
not-verified branch issues a fresh verification code and sends an email
(external effects, elided here) before raising 403. -/
def refresh_access_token (token : TokenClaims) (now : Int)
    (application_id : String)
    (lookup : Option String → String → Option User)
    (access_expire refresh_expire : Int) :
    Except AuthError (TokenClaims × TokenClaims) :=
  if token.exp < now then .error .invalidToken
  else if token.app ≠ some application_id then
    .error .invalidTokenForApplication
  else
    match token.sub with
    | none => .error .invalidToken
    | some uid =>
      match lookup (some uid) application_id with
      | none => .error .userNotFound
      | some user =>
        if user.is_active = false then .error .inactiveUser
        else if user.is_verified = false then .error .accountNotVerified
        else .ok (create_access_token uid application_id access_expire,
          create_refresh_token uid application_id refresh_expire)

/-- Python `str.split(sep)` with a one-character separator, full split:
`"a@b".split("@") = ["a","b"]`, `"".split("@") = [""]`. -/
def split_on (sep : Char) : List Char → List (List Char)
  | [] => [[]]
  | c :: rest =>
    let r := split_on sep rest
    if c = sep then [] :: r
    else
      match r with
      | [] => [[c]]
      | h :: t => (c :: h) :: t

/-- Python `str.split(sep, 1)` with a one-character separator, as the pair
of parts around the first occurrence; `none` when the separator is absent
(Python would return the one-element list). -/
def split_once (sep : Char) : List Char → Option (List Char × List Char)
  | [] => none
  | c :: rest =>
    if c = sep then some ([], rest)
    else
      match split_once sep rest with
      | none => none
      | some (a, b) => some (c :: a, b)

/-- `prefix_email_with_package` (`app/utils.py:283-289`):
`username, domain = email.split("@")` — a `ValueError` (here `none`) unless
the split yields exactly two parts — then
`f"{package_name}+{username}@{domain}"`. -/
def prefix_email_with_package (email package_name : List Char) :
    Option (List Char) :=
  match split_on '@' email with
  | [username, domain] =>
    some (package_name ++ '+' :: username ++ '@' :: domain)
  | _ => none

/-- `extract_real_email` (`app/utils.py:291-303`): returns the input
unchanged when it holds no `+`, otherwise everything after the first `+`. -/
def extract_real_email (prefixed_email : List Char) : List Char :=
  if '+' ∈ prefixed_email then
    match split_once '+' prefixed_email with
    | some (_, after) => after
    | none => prefixed_email
  else prefixed_email

/-- A Python `datetime`: a UTC epoch value together with whether `tzinfo`
is set. `replace(tzinfo=timezone.utc)` keeps the clock fields and declares
them UTC, so it changes only the flag. -/
structure PyDateTime where
  t : Int
  aware : Bool
  deriving Repr, DecidableEq

/-- A verification-code row (`app/models/database/verification.py`). The
consumed state is the `is_verified` flag. -/
structure Verification where
  application_id : String
  email : List Char
  user_id : String
  code : String
  created_at : PyDateTime
  expires_at : PyDateTime
  is_verified : Bool
  deriving Repr, DecidableEq

/-- `Verification.is_expired`
(`app/models/database/verification.py:20-24`): a naive `expires_at` gets
UTC attached (value unchanged), then the test is `now > expires_at`. -/
def Verification.is_expired (v : Verification) (now : Int) : Bool :=
  let e := if v.expires_at.aware then v.expires_at else ⟨v.expires_at.t, true⟩
  decide (now > e.t)

/-- `Verification.generate`
(`app/models/database/verification.py:26-41`) with the random 6-digit code
passed in explicitly; `expires_at = now + expiration_minutes` (in minutes,
timezone-aware). -/
def Verification.generate (application_id : String) (email : List Char)
    (user_id : String) (expiration_minutes : Int) (now : Int)
    (code : String) : Verification :=
  ⟨application_id, email, user_id, code, ⟨now, true⟩,
    ⟨now + expiration_minutes, true⟩, false⟩

/-- The distinct `HTTPException`s of the `verify_email` endpoint
(`app/api/routes/auth.py:544-614`). -/
inductive VerifyError where
  | userNotFound
  | noVerificationCode
  | verificationExpired
  | alreadyVerified
  | invalidVerificationCode
  deriving Repr, DecidableEq

/-- The state `verify_email` reads and writes: the addressed user row and
the latest verification row for that user and application (the source's
`order_by(created_at.desc()).first()`). -/
structure VerifyState where
  user : Option User
  latest : Option Verification
  deriving Repr, DecidableEq

/-- `verify_email` (`app/api/routes/auth.py:544-614`): not-found, expired,
already-verified and code-mismatch checks in that order; on success both
the verification row and the user are marked verified and committed. -/
def verify_email (st : VerifyState) (code : String) (now : Int) :
    Except VerifyError VerifyState :=
  match st.user with
  | none => .error .userNotFound
  | some user =>
    match st.latest with
    | none => .error .noVerificationCode
    | some v =>
      if v.is_expired now then .error .verificationExpired
      else if v.is_verified then .error .alreadyVerified
      else if v.code ≠ code then .error .invalidVerificationCode
      else .ok ⟨some { user with is_verified := true },
        some { v with is_verified := true }⟩

/-- The endpoint as a state transformer: an `HTTPException` commits
nothing, so the state is returned unchanged on error. -/
def verify_email_step (st : VerifyState) (code : String) (now : Int) :
    VerifyState :=
  match verify_email st code now with
  | .ok st2 => st2
  | .error _ => st

/-- An OTP row (`app/models/database/otp.py`). -/
structure OTP where
  application_id : String
  email : List Char
  user_id : String
  code : String
  created_at : PyDateTime
  expires_at : PyDateTime
  is_verified : Bool
  deriving Repr, DecidableEq

/-- `OTP.is_expired` (`app/models/database/otp.py:18-22`): same normalize-
then-compare as `Verification.is_expired`. -/
def OTP.is_expired (o : OTP) (now : Int) : Bool :=
  let e := if o.expires_at.aware then o.expires_at else ⟨o.expires_at.t, true⟩
  decide (now > e.t)

/-- `OTP.generate` (`app/models/database/otp.py:24-36`), random code passed
in. `application_id` has no default. -/
def OTP.generate (application_id : String) (email : List Char)
    (user_id : String) (expiration_minutes : Int) (now : Int)
    (code : String) : OTP :=
  ⟨application_id, email, user_id, code, ⟨now, true⟩,
    ⟨now + expiration_minutes, true⟩, false⟩

/-- The Python exception classes outside `HTTPException` that matter here. -/
inductive PyError where
  | typeError
  deriving Repr, DecidableEq

/-- The keyword arguments a call site passes to `OTP.generate`. -/
structure OTPGenerateKwargs where
  application_id : Option String
  email : Option (List Char)
  user_id : Option String
  expiration_minutes : Option Int
  deriving Repr, DecidableEq

/-- Python call binding for `OTP.generate`: `application_id`, `email` and
`user_id` have no default value, so a call that omits any of them raises
`TypeError` before the body runs; `expiration_minutes` defaults to 10. -/
def OTP.generate_call (kw : OTPGenerateKwargs) (now : Int) (code : String) :
    Except PyError OTP :=
  match kw.application_id, kw.email, kw.user_id with
  | some a, some e, some u =>
    .ok (OTP.generate a e u (kw.expiration_minutes.getD 10) now code)
  | _, _, _ => .error .typeError

/-- The outcomes of the `login` endpoint: the raised `HTTPException`s plus
the uncaught `TypeError` surfacing from the unverified branch. -/
inductive LoginError where
  | incorrectCredentials
  | accountInactive
  | accountNotVerified
  | typeError
  deriving Repr, DecidableEq

/-- `login` (`app/api/routes/auth.py:46-128`). `auth_user` is the result of
`crud.authenticate`; `existing_otp` is the latest OTP row for the user
(`order_by(created_at.desc()).first()`). Returns the post-state of that OTP
row next to the outcome. In the unverified branch with no valid OTP the
source first deletes the stale row (committed), then calls
`OTP.generate(email=..., user_id=...)` — `OTP.generate_call` with
`application_id` omitted. Email dispatch is an external effect, elided. -/
def login (auth_user : Option User) (existing_otp : Option OTP) (now : Int)
    (fresh_code : String) (access_expire refresh_expire : Int) :
    Option OTP × Except LoginError (TokenClaims × TokenClaims) :=
  match auth_user with
  | none => (existing_otp, .error .incorrectCredentials)
  | some user =>
    if user.is_active = false then (existing_otp, .error .accountInactive)
    else if user.is_verified = false then
      match existing_otp with
      | some otp =>
        if otp.is_expired now = false then
          (some otp, .error .accountNotVerified)
        else
          match OTP.generate_call
              ⟨none, some (extract_real_email user.email), some user.id, none⟩
              now fresh_code with
          | .error _ => (none, .error .typeError)
          | .ok otp2 => (some otp2, .error .accountNotVerified)
      | none =>
        match OTP.generate_call
            ⟨none, some (extract_real_email user.email), some user.id, none⟩
            now fresh_code with
        | .error _ => (none, .error .typeError)
        | .ok otp2 => (some otp2, .error .accountNotVerified)
    else
      (existing_otp,
        .ok (create_access_token user.id user.application_id access_expire,
          create_refresh_token user.id user.application_id refresh_expire))

/-- An application (tenant) row (`app/models/database/application.py`). -/
structure Application where
  id : String
  package_name : List Char
  default_user_credit : Int
  is_active : Bool
  deriving Repr, DecidableEq

/-- An invitation row (`app/models/database/invitation.py`). -/
structure Invitation where
  application_id : String
  inviter_id : String
  email_to : List Char
  code : String
  created_at : PyDateTime
  expires_at : PyDateTime
  is_used : Bool
  used_at : Option Int
  deriving Repr, DecidableEq

/-- `Invitation.is_expired` (`app/models/database/invitation.py:24-28`):
same normalize-then-compare as the other credential kinds. -/
def Invitation.is_expired (i : Invitation) (now : Int) : Bool :=
  let e := if i.expires_at.aware then i.expires_at else ⟨i.expires_at.t, true⟩
  decide (now > e.t)

/-- `Invitation.consume` (`app/models/database/invitation.py:30-33`):
`is_used = True`, `used_at = now`. -/
def Invitation.consume (i : Invitation) (now : Int) : Invitation :=
  { i with is_used := true, used_at := some now }

/-- Replace the first element satisfying `p` by its image under `f`: the
ORM mutates exactly the single row a `.first()` query returned. -/
def update_first (p : α → Bool) (f : α → α) : List α → List α
  | [] => []
  | x :: xs => if p x then f x :: xs else x :: update_first p f xs

/-- `crud.get_user_by_email` (`app/crud.py:25-41`): direct match on the raw
email first (backward compatibility), then a match on the package-prefixed
email. The `ValueError` the prefixing raises on an email without exactly
one `@` is modelled as no match (the endpoints only pass validated
`EmailStr` values). -/
def get_user_by_email (users : List User) (email : List Char)
    (application : Application) : Option User :=
  match users.find? (fun u =>
      u.email == email && u.application_id == application.id) with
  | some user => some user
  | none =>
    match prefix_email_with_package email application.package_name with
    | none => none
    | some prefixed =>
      users.find? (fun u =>
        u.email == prefixed && u.application_id == application.id)

/-- `crud.get_user_by_id` (`app/crud.py:47-49`). -/
def get_user_by_id (users : List User) (user_id : String)
    (application_id : String) : Option User :=
  users.find? (fun u =>
    u.id == user_id && u.application_id == application_id)

/-- The distinct failures of the `register` endpoint
(`app/api/routes/auth.py:321-424`). -/
inductive RegisterError where
  | userExists
  | invalidToken
  | invitationCodeUsed
  | invitationCodeExpired
  | valueError
  deriving Repr, DecidableEq

/-- `crud.create_user` (`app/crud.py:58-82`): prefixes the email with the
application's package name and inserts the new row (`is_active` and
`is_verified` as the caller's `UserCreate` carries them; password hashing
is an external primitive, elided). -/
def create_user (users : List User) (application : Application)
    (new_id : String) (email : List Char) (credit : Int)
    (is_verified : Bool) : Except RegisterError (List User × User) :=
  match prefix_email_with_package email application.package_name with
  | none => .error .valueError
  | some prefixed =>
    let user : User :=
      ⟨new_id, application.id, prefixed, credit, false, true, is_verified⟩
    .ok (users ++ [user], user)

/-- The `UserCreate` payload (`app/models/schemas/user.py`): the fields the
register flow reads; `credit` defaults to 10. -/
structure UserCreate where
  email : List Char
  credit : Int
  invite_code : Option String
  inviter_id : Option String
  deriving Repr, DecidableEq

/-- The invitation lookup predicate of `register`
(`app/api/routes/auth.py:346-352`): code, inviter and application all
match. -/
def invitation_matches (code inviter application_id : String)
    (i : Invitation) : Bool :=
  i.code == code && i.inviter_id == inviter &&
    i.application_id == application_id

/-- The state `register` reads and writes. -/
structure RegState where
  users : List User
  invitations : List Invitation
  deriving Repr, DecidableEq

/-- `register` (`app/api/routes/auth.py:321-424`): email-existence check,
then invitation validation and consumption, the `credit == 10 → tenant
default` replacement, user creation, and the inviter bonus. The trailing
verification-code issuance and email dispatch touch no user or invitation
row and are elided. Returns the new state and the `RegisterResponse` id. -/
def register (st : RegState) (application : Application) (uc : UserCreate)
    (now : Int) (new_id : String) :
    Except RegisterError (RegState × String) :=
  match get_user_by_email st.users uc.email application with
  | some _ => .error .userExists
  | none =>
    match uc.invite_code, uc.inviter_id with
    | some code, some inviter =>
      match st.invitations.find?
          (invitation_matches code inviter application.id) with
      | none => .error .invalidToken
      | some invitation =>
        if invitation.is_used then .error .invitationCodeUsed
        else if invitation.is_expired now then .error .invitationCodeExpired
        else
          let invitations2 := update_first
            (invitation_matches code inviter application.id)
            (fun i => i.consume now) st.invitations
          let credit1 := application.default_user_credit * 2
          let credit2 := if credit1 == 10 then application.default_user_credit
            else credit1
          match create_user st.users application new_id uc.email credit2
              false with
          | .error e => .error e
          | .ok (users2, newUser) =>
            let users3 := update_first
              (fun u => u.id == inviter &&
                u.application_id == application.id)
              (fun u => { u with
                credit := u.credit + application.default_user_credit })
              users2
            .ok (⟨users3, invitations2⟩, newUser.id)
    | _, _ =>
      let credit2 := if uc.credit == 10 then application.default_user_credit
        else uc.credit
      match create_user st.users application new_id uc.email credit2
          false with
      | .error e => .error e
      | .ok (users2, newUser) => .ok (⟨users2, st.invitations⟩, newUser.id)

/-- The endpoint as a state transformer: an `HTTPException` commits
nothing, so the state is returned unchanged on error. -/
def register_step (st : RegState) (application : Application)
    (uc : UserCreate) (now : Int) (new_id : String) : RegState :=
  match register st application uc now new_id with
  | .ok (st2, _) => st2
  | .error _ => st

/-- A redeem-code row (`app/models/database/redeem_code.py`). The model
declares `value` with `ge=50`, but SQLModel `table=True` classes skip
validation and no database check constraint is generated, so the field is
a plain `Int`. -/
structure RedeemCode where
  code : String
  value : Int
  is_used : Bool
  deriving Repr, DecidableEq

/-- The failures of the redeem and credit endpoints. -/
inductive CreditOpError where
  | redeemCodeExists
  | redeemCodeInvalid
  | userNotFound
  | invalidCreditAmount
  deriving Repr, DecidableEq

/-- `add_redeem_code` (`app/api/routes/redeem.py:33-43`): superuser-only;
the endpoint takes `value: int` as a plain query parameter with no lower
bound and stores it unvalidated. -/
def add_redeem_code (codes : List RedeemCode) (code : String) (value : Int) :
    Except CreditOpError (List RedeemCode) :=
  if (codes.find? (fun r => r.code == code)).isSome then
    .error .redeemCodeExists
  else .ok (codes ++ [⟨code, value, false⟩])

/-- `use_redeem_code` (`app/api/routes/redeem.py:45-58`): an unused code's
value is added to the user's credit with no sign or range check
(`user.credit += redeem_code.value`), and the code is marked used. The user
query has no application filter in the source. -/
def use_redeem_code (codes : List RedeemCode) (users : List User)
    (code : String) (user_id : String) :
    Except CreditOpError (List RedeemCode × List User) :=
  match codes.find? (fun r => r.code == code) with
  | none => .error .redeemCodeInvalid
  | some r =>
    if r.is_used then .error .redeemCodeInvalid
    else
      match users.find? (fun u => u.id == user_id) with
      | none => .error .userNotFound
      | some _ =>
        .ok (update_first (fun rc => rc.code == code)
            (fun rc => { rc with is_used := true }) codes,
          update_first (fun u => u.id == user_id)
            (fun u => { u with credit := u.credit + r.value }) users)

/-- `add_credit` (`app/api/routes/credit.py:11-33`): rejects `amount <= 0`,
otherwise `current_user.credit += amount`. -/
def add_credit (user : User) (amount : Int) : Except CreditOpError User :=
  if amount ≤ 0 then .error .invalidCreditAmount
  else .ok { user with credit := user.credit + amount }

end Backend

namespace Backend

/-- Helper: closed form of `process_credit_deduction` for a non-premium user
with nonnegative balance and cost. -/
lemma process_credit_deduction_closed (i a : String) (e : List Char)
    (c : Int) (act ver : Bool) (amt : Int) (hc : 0 ≤ c) (ha : 0 ≤ amt) :
    process_credit_deduction ⟨i, a, e, c, false, act, ver⟩ amt =
      (⟨i, a, e, c - min c amt, false, act, ver⟩, c - min c amt,
        decide (amt ≤ c)) := by
  simp only [process_credit_deduction, decrease_user_credit]
  split
  · next h => simp at h
  · split
    · rfl
    · next h =>
      have hm : min c amt = 0 := by omega
      simp [hm]

/-- Helper: the chat endpoint's inline deduction block computes exactly what
`process_credit_deduction` computes at `calculate_credit_cost sources`. -/
lemma chat_endpoint_credit_eq (u : User) (sources : Bool) :
    chat_endpoint_credit u sources =
      process_credit_deduction u (calculate_credit_cost sources) := by
  obtain ⟨i, a, e, c, prem, act, ver⟩ := u
  cases prem <;> cases sources <;>
    simp only [chat_endpoint_credit, process_credit_deduction,
      calculate_credit_cost, decrease_user_credit] <;>
    split_ifs <;>
    simp_all [Prod.mk.injEq, User.mk.injEq] <;>
    omega

/-- C1: for a non-premium user with credit `c ≥ 0` and cost `amount ≥ 0`,
`process_credit_deduction` applies exactly `min c amount`, returns remaining
credit `c - min c amount` and `sufficient = (c ≥ amount)`, persists a credit
that is still `≥ 0` (the function is total, so no insufficient-funds error
can be raised), and for a premium user applies `0` and returns `(c, true)`;
the chat endpoint's inline deduction block persists the same
`c - min c cost` balance. -/
theorem credit_deduction_applies_min (c amount : Int) (hc : 0 ≤ c)
    (ha : 0 ≤ amount) (i a e : String) (act ver : Bool) (sources : Bool) :
    process_credit_deduction ⟨i, a, e.toList, c, false, act, ver⟩ amount =
      (⟨i, a, e.toList, c - min c amount, false, act, ver⟩,
        c - min c amount, decide (amount ≤ c)) ∧
    0 ≤ c - min c amount ∧
    c - (c - min c amount) = min c amount ∧
    process_credit_deduction ⟨i, a, e.toList, c, true, act, ver⟩ amount =
      (⟨i, a, e.toList, c, true, act, ver⟩, c, true) ∧
    chat_endpoint_credit ⟨i, a, e.toList, c, false, act, ver⟩ sources =
      (⟨i, a, e.toList, c - min c (calculate_credit_cost sources), false,
          act, ver⟩,
        c - min c (calculate_credit_cost sources),
        decide (calculate_credit_cost sources ≤ c)) := by
  have hcost : 0 ≤ calculate_credit_cost sources := by
    cases sources <;> simp [calculate_credit_cost]
  refine ⟨process_credit_deduction_closed i a e.toList c act ver amount hc ha,
    by omega, by omega, by simp [process_credit_deduction], ?_⟩
  rw [chat_endpoint_credit_eq]
  exact process_credit_deduction_closed i a e.toList c act ver _ hc hcost

/-- Witness for C1 at `c = 5`, `amount = 3`. -/
theorem credit_deduction_applies_min_witness :
    (0 : Int) ≤ 5 ∧ (0 : Int) ≤ 3 ∧
    (process_credit_deduction ⟨"u", "a", "".toList, 5, false, true, true⟩ 3).2.1 =
      5 - min 5 3 := by
  refine ⟨by norm_num, by norm_num, ?_⟩
  rw [(credit_deduction_applies_min 5 3 (by norm_num) (by norm_num)
    "u" "a" "" true true false).1]

/-- C6 counterexample: the claim prices a translated, source-less operation
at `1 + 0 + 1 = 2`, but `calculate_credit_cost` takes no translation input
at all and returns `1` whenever no retrieval sources were returned. -/
theorem credit_cost_translation_counterexample :
    cost_spec false true = 2 ∧ calculate_credit_cost false = 1 ∧
    calculate_credit_cost false ≠ cost_spec false true := by
  refine ⟨rfl, rfl, ?_⟩
  simp [calculate_credit_cost, cost_spec]

/-- C6 (amended): the computed credit cost is base `1` plus `1` if the
operation returned retrieval sources; translation does not enter the cost
(the source's cost function takes no translation input); and a premium user
is charged `0` regardless of the computed cost — `process_credit_deduction`
leaves the premium user's row untouched and reports `(credit, true)`. -/
theorem credit_cost_base_plus_sources (s : Bool) (c : Int) (i a : String)
    (e : List Char) (act ver : Bool) :
    calculate_credit_cost s = 1 + (if s then 1 else 0) ∧
    process_credit_deduction ⟨i, a, e, c, true, act, ver⟩
        (calculate_credit_cost s) =
      (⟨i, a, e, c, true, act, ver⟩, c, true) := by
  constructor
  · cases s <;> simp [calculate_credit_cost]
  · simp [process_credit_deduction]


/-- C2: a token minted with application claim `tenantA` fails validation
against any distinct resolved tenant `tenantB` with the tenant-mismatch
error, in both `get_current_user` and `refresh_access_token`; the result
holds for every user-lookup function, so no user is ever resolved on this
path. -/
theorem token_tenant_mismatch (s tenantA tenantB : String) (expire now : Int)
    (hAB : tenantA ≠ tenantB) (hexp : ¬ expire < now)
    (accessExp refreshExp : Int)
    (lookup lookup2 : Option String → String → Option User) :
    get_current_user (create_access_token s tenantA expire) now tenantB
        lookup = .error .invalidTokenForApplication ∧
    refresh_access_token (create_refresh_token s tenantA expire) now tenantB
        lookup2 accessExp refreshExp =
      .error .invalidTokenForApplication := by
  constructor
  · by_cases hA : tenantA = ""
    · simp [get_current_user, create_access_token, hexp, hA]
    · simp [get_current_user, create_access_token, hexp, hA,
        (Ne.symm hAB : tenantB ≠ tenantA)]
  · have : (some tenantA : Option String) ≠ some tenantB := by
      simpa using hAB
    simp [refresh_access_token, create_refresh_token, hexp, this]

/-- Witness for C2: tenants "appA" and "appB", an unexpired token, and the
empty user store. -/
theorem token_tenant_mismatch_witness :
    get_current_user (create_access_token "user1" "appA" 100) 0 "appB"
        (fun _ _ => none) = .error .invalidTokenForApplication ∧
    refresh_access_token (create_refresh_token "user1" "appA" 100) 0 "appB"
        (fun _ _ => none) 5 10 = .error .invalidTokenForApplication :=
  token_tenant_mismatch "user1" "appA" "appB" 100 0 (by decide) (by decide)
    5 10 (fun _ _ => none) (fun _ _ => none)

/-- Helper: `split_on` never returns the empty list of parts. -/
lemma split_on_ne_nil (sep : Char) (l : List Char) : split_on sep l ≠ [] := by
  cases l with
  | nil => simp [split_on]
  | cons c rest =>
    simp only [split_on]
    by_cases hc : c = sep
    · simp [hc]
    · simp only [if_neg hc]
      cases hr : split_on sep rest <;> simp

/-- Helper: a one-part split returns the whole input. -/
lemma split_on_eq_singleton (sep : Char) (l : List Char) :
    ∀ x, split_on sep l = [x] → l = x := by
  induction l with
  | nil =>
    intro x h
    simp [split_on] at h
    simp [h]
  | cons c rest ih =>
    intro x h
    simp only [split_on] at h
    by_cases hc : c = sep
    · rw [if_pos hc] at h
      simp at h
      exact absurd h.2 (split_on_ne_nil sep rest)
    · rw [if_neg hc] at h
      cases hr : split_on sep rest with
      | nil => exact absurd hr (split_on_ne_nil sep rest)
      | cons hh tt =>
        rw [hr] at h
        simp at h
        obtain ⟨h1, h2⟩ := h
        have hrest : rest = hh := ih hh (by rw [hr, h2])
        rw [← h1, hrest]

/-- Helper: a two-part split decomposes the input around the separator. -/
lemma split_on_eq_pair (sep : Char) (l : List Char) :
    ∀ a b, split_on sep l = [a, b] → l = a ++ sep :: b := by
  induction l with
  | nil => intro a b h; simp [split_on] at h
  | cons c rest ih =>
    intro a b h
    simp only [split_on] at h
    by_cases hc : c = sep
    · rw [if_pos hc] at h
      simp at h
      obtain ⟨h1, h2⟩ := h
      have hrest := split_on_eq_singleton sep rest b h2
      simp [← h1, hrest, hc]
    · rw [if_neg hc] at h
      cases hr : split_on sep rest with
      | nil => exact absurd hr (split_on_ne_nil sep rest)
      | cons hh tt =>
        rw [hr] at h
        simp at h
        obtain ⟨h1, h2⟩ := h
        have hrest : rest = hh ++ sep :: b := ih hh b (by rw [hr, h2])
        simp [← h1, hrest]

/-- Helper: splitting once at the first separator, when the leading part is
separator-free, recovers exactly that decomposition. -/
lemma split_once_append (sep : Char) (p rest : List Char) (hp : sep ∉ p) :
    split_once sep (p ++ sep :: rest) = some (p, rest) := by
  induction p with
  | nil => simp [split_once]
  | cons c cs ih =>
    have hc : ¬ c = sep := fun h => hp (by simp [h])
    have hcs : sep ∉ cs := fun h => hp (by simp [h])
    simp [split_once, hc, ih hcs]

/-- C7: for a package name without `+` and an email accepted by the tagging
function (exactly one `@`, enforced by its two-part split), detagging the
tagged email returns the original email:
`extract_real_email (prefix_email_with_package email pkg) = email`. -/
theorem email_tag_roundtrip (email pkg tagged : List Char)
    (hp : '+' ∉ pkg)
    (h : prefix_email_with_package email pkg = some tagged) :
    extract_real_email tagged = email := by
  unfold prefix_email_with_package at h
  cases he : split_on '@' email with
  | nil => rw [he] at h; simp at h
  | cons u t =>
    cases t with
    | nil => rw [he] at h; simp at h
    | cons d t2 =>
      cases t2 with
      | cons x xs => rw [he] at h; simp at h
      | nil =>
        rw [he] at h
        simp only [Option.some.injEq] at h
        subst h
        have hmem : '+' ∈ pkg ++ '+' :: u ++ '@' :: d := by simp
        have hsplit : split_once '+' (pkg ++ '+' :: u ++ '@' :: d) =
            some (pkg, u ++ '@' :: d) := by
          have hform : pkg ++ '+' :: u ++ '@' :: d =
              pkg ++ '+' :: (u ++ '@' :: d) := by simp
          rw [hform, split_once_append '+' pkg _ hp]
        rw [extract_real_email, if_pos hmem, hsplit]
        exact (split_on_eq_pair '@' email u d he).symm

/-- Witness for C7 on `user@example.com` and package `com.app.test`. -/
theorem email_tag_roundtrip_witness :
    ('+' ∉ "com.app.test".toList) ∧
    prefix_email_with_package "user@example.com".toList
        "com.app.test".toList =
      some "com.app.test+user@example.com".toList ∧
    extract_real_email "com.app.test+user@example.com".toList =
      "user@example.com".toList := by
  refine ⟨by decide, by decide, ?_⟩
  exact email_tag_roundtrip "user@example.com".toList "com.app.test".toList
    "com.app.test+user@example.com".toList (by decide) (by decide)

/-- C3: a correct, unexpired, not-yet-consumed verification code succeeds
exactly once: the first `verify_email` marks the credential and the user
verified; the second call with the same code fails with the
already-consumed error (HTTP 409 `already_verified`), and as a state
transformer it leaves the state unchanged. -/
theorem verify_email_single_consumption (user : User) (v : Verification)
    (code : String) (t1 t2 : Int)
    (hver : v.is_verified = false)
    (h1 : v.is_expired t1 = false) (h2 : v.is_expired t2 = false)
    (hcode : v.code = code) :
    verify_email ⟨some user, some v⟩ code t1 =
      .ok ⟨some { user with is_verified := true },
        some { v with is_verified := true }⟩ ∧
    verify_email ⟨some { user with is_verified := true },
        some { v with is_verified := true }⟩ code t2 =
      .error .alreadyVerified ∧
    verify_email_step ⟨some { user with is_verified := true },
        some { v with is_verified := true }⟩ code t2 =
      ⟨some { user with is_verified := true },
        some { v with is_verified := true }⟩ := by
  have hexp2 : Verification.is_expired { v with is_verified := true } t2 =
      false := by
    simpa [Verification.is_expired] using h2
  refine ⟨?_, ?_, ?_⟩
  · simp [verify_email, h1, hver, hcode]
  · simp [verify_email, hexp2]
  · simp [verify_email_step, verify_email, hexp2]

/-- Witness for C3 with a concrete user, code `123456`, issue time `0`,
expiry `100`, calls at times `1` and `2`. -/
theorem verify_email_single_consumption_witness :
    verify_email
        ⟨some ⟨"u1", "app1", "b@x.co".toList, 0, false, true, false⟩,
          some ⟨"app1", "b@x.co".toList, "u1", "123456", ⟨0, true⟩,
            ⟨100, true⟩, false⟩⟩ "123456" 1 =
      .ok ⟨some ⟨"u1", "app1", "b@x.co".toList, 0, false, true, true⟩,
        some ⟨"app1", "b@x.co".toList, "u1", "123456", ⟨0, true⟩,
          ⟨100, true⟩, true⟩⟩ ∧
    verify_email
        ⟨some ⟨"u1", "app1", "b@x.co".toList, 0, false, true, true⟩,
          some ⟨"app1", "b@x.co".toList, "u1", "123456", ⟨0, true⟩,
            ⟨100, true⟩, true⟩⟩ "123456" 2 =
      .error .alreadyVerified :=
  ⟨(verify_email_single_consumption
      ⟨"u1", "app1", "b@x.co".toList, 0, false, true, false⟩
      ⟨"app1", "b@x.co".toList, "u1", "123456", ⟨0, true⟩, ⟨100, true⟩, false⟩
      "123456" 1 2 rfl (by decide) (by decide) rfl).1,
   (verify_email_single_consumption
      ⟨"u1", "app1", "b@x.co".toList, 0, false, true, false⟩
      ⟨"app1", "b@x.co".toList, "u1", "123456", ⟨0, true⟩, ⟨100, true⟩, false⟩
      "123456" 1 2 rfl (by decide) (by decide) rfl).2.1⟩

/-- C5: an expired credential is rejected with the expired error before the
code comparison — in particular even when the supplied code is the
credential's own correct code — and the expiry predicate is exactly
`now > expires_at` with a naive `expires_at` normalized to UTC (the stored
value unchanged) before the comparison. -/
theorem verification_expiry_rejects (user : User) (v : Verification)
    (code : String) (now : Int)
    (hexp : v.is_expired now = true) :
    verify_email ⟨some user, some v⟩ code now =
      .error .verificationExpired ∧
    verify_email ⟨some user, some v⟩ v.code now =
      .error .verificationExpired ∧
    v.is_expired now = decide (now > v.expires_at.t) := by
  refine ⟨by simp [verify_email, hexp], by simp [verify_email, hexp], ?_⟩
  cases hv : v.expires_at with
  | mk te aware => cases aware <;> simp [Verification.is_expired, hv]

/-- Witness for C5: a credential that expired at `100`, validated at `200`
with its own correct code. -/
theorem verification_expiry_rejects_witness :
    verify_email
        ⟨some ⟨"u1", "app1", "b@x.co".toList, 0, false, true, false⟩,
          some ⟨"app1", "b@x.co".toList, "u1", "123456", ⟨0, true⟩,
            ⟨100, true⟩, false⟩⟩ "123456" 200 =
      .error .verificationExpired :=
  (verification_expiry_rejects
    ⟨"u1", "app1", "b@x.co".toList, 0, false, true, false⟩
    ⟨"app1", "b@x.co".toList, "u1", "123456", ⟨0, true⟩, ⟨100, true⟩, false⟩
    "123456" 200 (by decide)).1

/-- C10 (code evaluated at the failing input): for an active, unverified
user authenticated with a correct password, the existing-unexpired-OTP
branch of `login` does fail with `account_not_verified` as the claim says,
but the no-valid-OTP branch calls `OTP.generate(email=..., user_id=...)`
without the required `application_id` argument, so it raises `TypeError`
instead of the account-not-verified error. -/
theorem login_unverified_generate_type_error :
    login (some ⟨"u1", "app1", "pkg+b@x.co".toList, 0, false, true, false⟩)
        none 0 "654321" 5 10 =
      (none, .error .typeError) ∧
    login (some ⟨"u1", "app1", "pkg+b@x.co".toList, 0, false, true, false⟩)
        (some ⟨"app1", "b@x.co".toList, "u1", "111111", ⟨0, true⟩,
          ⟨100, true⟩, false⟩) 0 "654321" 5 10 =
      (some ⟨"app1", "b@x.co".toList, "u1", "111111", ⟨0, true⟩,
          ⟨100, true⟩, false⟩,
        .error .accountNotVerified) := by
  constructor <;> rfl

/-- Helper: updating a first `q`-match with an `f` that does not change how
`p` evaluates preserves an empty `p`-search. -/
lemma find?_update_first_none {α : Type} (p q : α → Bool) (f : α → α)
    (hpf : ∀ x, p (f x) = p x) (l : List α) (h : l.find? p = none) :
    (update_first q f l).find? p = none := by
  induction l with
  | nil => simp [update_first]
  | cons x xs ih =>
    have hx : ¬ (p x = true) := fun hpx => by
      simp [List.find?_cons_of_pos _ hpx] at h
    have hxs : xs.find? p = none := by
      rwa [List.find?_cons_of_neg _ hx] at h
    simp only [update_first]
    split
    · rw [List.find?_cons_of_neg _ (by rw [hpf]; exact hx)]
      exact hxs
    · rw [List.find?_cons_of_neg _ hx]
      exact ih hxs

/-- Helper: updating the first `p`-match with an `f` that does not change
how `p` evaluates updates exactly the element `find?` returns. -/
lemma find?_update_first_some {α : Type} (p : α → Bool) (f : α → α)
    (hpf : ∀ x, p (f x) = p x) (l : List α) (x : α) (h : l.find? p = some x) :
    (update_first p f l).find? p = some (f x) := by
  induction l with
  | nil => simp [List.find?] at h
  | cons y ys ih =>
    by_cases hy : p y = true
    · rw [List.find?_cons_of_pos _ hy] at h
      injection h with h
      subst h
      simp only [update_first, if_pos hy]
      rw [List.find?_cons_of_pos _ (by rw [hpf]; exact hy)]
    · rw [List.find?_cons_of_neg _ hy] at h
      simp only [update_first, if_neg hy]
      rw [List.find?_cons_of_neg _ hy]
      exact ih h

/-- Helper: an update that does not change how `p` evaluates keeps a
`p`-search successful. -/
lemma find?_update_first_isSome {α : Type} (p q : α → Bool) (f : α → α)
    (hpf : ∀ x, p (f x) = p x) (l : List α) (h : (l.find? p).isSome) :
    ((update_first q f l).find? p).isSome := by
  induction l with
  | nil => simp [List.find?] at h
  | cons y ys ih =>
    by_cases hy : p y = true
    · simp only [update_first]
      split
      · rw [List.find?_cons_of_pos _ (by rw [hpf]; exact hy)]
        simp
      · rw [List.find?_cons_of_pos _ hy]
        simp
    · rw [List.find?_cons_of_neg _ hy] at h
      simp only [update_first]
      split
      · rw [List.find?_cons_of_neg _ (by rw [hpf]; exact hy)]
        exact h
      · rw [List.find?_cons_of_neg _ hy]
        exact ih h

/-- Helper: an empty `get_user_by_email` means both the raw and the
prefixed search were empty. -/
lemma get_user_by_email_none (users : List User) (email : List Char)
    (app : Application) (h : get_user_by_email users email app = none) :
    users.find? (fun u =>
      u.email == email && u.application_id == app.id) = none ∧
    ∀ prefixed,
      prefix_email_with_package email app.package_name = some prefixed →
      users.find? (fun u =>
        u.email == prefixed && u.application_id == app.id) = none := by
  unfold get_user_by_email at h
  cases h1 : users.find? (fun u =>
      u.email == email && u.application_id == app.id) with
  | some u => rw [h1] at h; exact absurd h (by simp)
  | none =>
    rw [h1] at h
    refine ⟨rfl, fun prefixed hpre => ?_⟩
    rw [hpre] at h
    exact h

/-- Helper: the tagged email is never the raw email (it is strictly
longer). -/
lemma prefixed_ne_email (email pkg prefixed : List Char)
    (h : prefix_email_with_package email pkg = some prefixed) :
    prefixed ≠ email := by
  unfold prefix_email_with_package at h
  cases he : split_on '@' email with
  | nil => rw [he] at h; simp at h
  | cons u t =>
    cases t with
    | nil => rw [he] at h; simp at h
    | cons d t2 =>
      cases t2 with
      | cons x xs => rw [he] at h; simp at h
      | nil =>
        rw [he] at h
        simp only [Option.some.injEq] at h
        subst h
        have hemail := split_on_eq_pair '@' email u d he
        intro heq
        have hlen := congrArg List.length heq
        rw [hemail] at hlen
        simp [List.length_append] at hlen
        omega

/-- Helper: tagging the same email under two distinct package names gives
two distinct stored emails. -/
lemma prefixed_ne_of_package_ne (email pkgA pkgB pA pB : List Char)
    (hA : prefix_email_with_package email pkgA = some pA)
    (hB : prefix_email_with_package email pkgB = some pB)
    (hPkg : pkgA ≠ pkgB) : pA ≠ pB := by
  unfold prefix_email_with_package at hA hB
  cases he : split_on '@' email with
  | nil => rw [he] at hA; simp at hA
  | cons u t =>
    cases t with
    | nil => rw [he] at hA; simp at hA
    | cons d t2 =>
      cases t2 with
      | cons x xs => rw [he] at hA; simp at hA
      | nil =>
        rw [he] at hA hB
        simp only [Option.some.injEq] at hA hB
        subst hA
        subst hB
        intro heq
        exact hPkg (List.append_cancel_right (List.append_cancel_right heq))

/-- C9 (code evaluated at the failing input): `add_redeem_code` accepts a
negative value, and `use_redeem_code` then persists a negative credit for a
user whose balance was `0` — the non-negativity invariant fails on a
reachable operation sequence. -/
theorem negative_redeem_persists_negative_credit :
    add_redeem_code [] "NEG" (-100) = .ok [⟨"NEG", -100, false⟩] ∧
    use_redeem_code [⟨"NEG", -100, false⟩]
        [⟨"u1", "app1", "pkg+b@x.co".toList, 0, false, true, true⟩]
        "NEG" "u1" =
      .ok ([⟨"NEG", -100, true⟩],
        [⟨"u1", "app1", "pkg+b@x.co".toList, -100, false, true, true⟩]) ∧
    (-100 : Int) < 0 := by
  refine ⟨rfl, rfl, by norm_num⟩

/-- C8: registering a real email under tenant A succeeds; a second
registration of the same real email under the same tenant fails with the
409 email-already-registered error and leaves the store unchanged (no user
created); registering the same real email under a distinct tenant B (with a
distinct package name) succeeds; and the two stored tagged emails differ,
so the physical unique index on `email` is also satisfied. -/
theorem register_same_email_two_tenants
    (st : RegState) (appA appB : Application) (email pA pB : List Char)
    (idA : String) (now : Int)
    (hApps : appA.id ≠ appB.id)
    (hPkg : appA.package_name ≠ appB.package_name)
    (hPreA : prefix_email_with_package email appA.package_name = some pA)
    (hPreB : prefix_email_with_package email appB.package_name = some pB)
    (hNoneA : get_user_by_email st.users email appA = none)
    (hNoneB : get_user_by_email st.users email appB = none) :
    register st appA ⟨email, 10, none, none⟩ now idA =
      .ok (⟨st.users ++
          [⟨idA, appA.id, pA, appA.default_user_credit, false, true, false⟩],
        st.invitations⟩, idA) ∧
    (∀ nid2 now2,
      register ⟨st.users ++
          [⟨idA, appA.id, pA, appA.default_user_credit, false, true, false⟩],
          st.invitations⟩ appA ⟨email, 10, none, none⟩ now2 nid2 =
        .error .userExists) ∧
    (∀ nid2 now2,
      register_step ⟨st.users ++
          [⟨idA, appA.id, pA, appA.default_user_credit, false, true, false⟩],
          st.invitations⟩ appA ⟨email, 10, none, none⟩ now2 nid2 =
        ⟨st.users ++
          [⟨idA, appA.id, pA, appA.default_user_credit, false, true, false⟩],
          st.invitations⟩) ∧
    (∀ idB now3,
      register ⟨st.users ++
          [⟨idA, appA.id, pA, appA.default_user_credit, false, true, false⟩],
          st.invitations⟩ appB ⟨email, 10, none, none⟩ now3 idB =
        .ok (⟨(st.users ++
            [⟨idA, appA.id, pA, appA.default_user_credit, false, true,
              false⟩]) ++
            [⟨idB, appB.id, pB, appB.default_user_credit, false, true,
              false⟩],
          st.invitations⟩, idB)) ∧
    pA ≠ pB := by
  obtain ⟨hrawA, hpreFA⟩ := get_user_by_email_none st.users email appA hNoneA
  obtain ⟨hrawB, hpreFB⟩ := get_user_by_email_none st.users email appB hNoneB
  have hpAe : (pA == email) = false :=
    beq_eq_false_iff_ne.mpr (prefixed_ne_email email appA.package_name pA hPreA)
  have hIds : (appA.id == appB.id) = false := beq_eq_false_iff_ne.mpr hApps
  have hfoundA : get_user_by_email (st.users ++
      [⟨idA, appA.id, pA, appA.default_user_credit, false, true, false⟩])
      email appA =
      some ⟨idA, appA.id, pA, appA.default_user_credit, false, true, false⟩ := by
    unfold get_user_by_email
    rw [List.find?_append, hrawA, Option.none_or]
    simp only [List.find?, hpAe, Bool.false_and]
    rw [hPreA]
    dsimp only
    rw [List.find?_append, hpreFA pA hPreA, Option.none_or]
    simp [List.find?]
  have hnoneB2 : get_user_by_email (st.users ++
      [⟨idA, appA.id, pA, appA.default_user_credit, false, true, false⟩])
      email appB = none := by
    unfold get_user_by_email
    rw [List.find?_append, hrawB, Option.none_or]
    simp only [List.find?, hIds, Bool.and_false]
    rw [hPreB]
    dsimp only
    rw [List.find?_append, hpreFB pB hPreB, Option.none_or]
    simp [List.find?, hIds]
  refine ⟨?_, ?_, ?_, ?_, ?_⟩
  · simp [register, hNoneA, create_user, hPreA]
  · intro nid2 now2
    simp [register, hfoundA]
  · intro nid2 now2
    simp [register_step, register, hfoundA]
  · intro idB now3
    simp [register, hnoneB2, create_user, hPreB]
  · exact prefixed_ne_of_package_ne email appA.package_name appB.package_name
      pA pB hPreA hPreB hPkg

/-- C4 counterexample: inviter `A` with credit 5, tenant default grant 6,
invitee `bob@x.co`. The first registration consumes the invitation and pays
the bonus once — but retrying the very same register call (same email, same
now-consumed code) fails with the email-already-registered error
(`user_exists`, 409), not the already-used error the claim demands: the
email-existence check runs before the invitation check. -/
theorem register_invite_retry_counterexample :
    register
        ⟨[⟨"A", "app1", "pkg+a@x.co".toList, 5, false, true, true⟩],
          [⟨"app1", "A", "bob@x.co".toList, "INV1", ⟨0, true⟩, ⟨100, true⟩,
            false, none⟩]⟩
        ⟨"app1", "pkg".toList, 6, true⟩
        ⟨"bob@x.co".toList, 10, some "INV1", some "A"⟩ 1 "B" =
      .ok (⟨[⟨"A", "app1", "pkg+a@x.co".toList, 11, false, true, true⟩,
          ⟨"B", "app1", "pkg+bob@x.co".toList, 12, false, true, false⟩],
        [⟨"app1", "A", "bob@x.co".toList, "INV1", ⟨0, true⟩, ⟨100, true⟩,
          true, some 1⟩]⟩, "B") ∧
    register
        ⟨[⟨"A", "app1", "pkg+a@x.co".toList, 11, false, true, true⟩,
          ⟨"B", "app1", "pkg+bob@x.co".toList, 12, false, true, false⟩],
          [⟨"app1", "A", "bob@x.co".toList, "INV1", ⟨0, true⟩, ⟨100, true⟩,
            true, some 1⟩]⟩
        ⟨"app1", "pkg".toList, 6, true⟩
        ⟨"bob@x.co".toList, 10, some "INV1", some "A"⟩ 2 "C" =
      .error .userExists ∧
    (Except.error RegisterError.userExists ≠
      (Except.error RegisterError.invitationCodeUsed :
        Except RegisterError (RegState × String))) := by
  refine ⟨rfl, rfl, by simp⟩

/-- C4 (amended): consuming a valid invitation during registration is
terminal and pays the inviter's bonus exactly once; a retry with the same
now-consumed code and a fresh email fails with the already-used error and
leaves the state (hence the bonus) unchanged, while a retry with the same
email fails earlier with the email-already-registered error — the
email-existence check precedes the invitation check — and likewise changes
nothing. -/
theorem register_invite_consumed_once
    (st : RegState) (app : Application) (email prefixed : List Char)
    (code inviter new_id : String) (now : Int) (userA : User)
    (inv : Invitation) (credit2 : Int) (newUser : User)
    (users3 : List User) (invs2 : List Invitation)
    (hEmail : get_user_by_email st.users email app = none)
    (hInv : st.invitations.find? (invitation_matches code inviter app.id) =
      some inv)
    (hUsed : inv.is_used = false)
    (hExp : inv.is_expired now = false)
    (hA : get_user_by_id st.users inviter app.id = some userA)
    (hPre : prefix_email_with_package email app.package_name = some prefixed)
    (hCred : credit2 = if (app.default_user_credit * 2 == 10 : Bool) then
      app.default_user_credit else app.default_user_credit * 2)
    (hNew : newUser = ⟨new_id, app.id, prefixed, credit2, false, true, false⟩)
    (hU3 : users3 = update_first
      (fun u => u.id == inviter && u.application_id == app.id)
      (fun u => { u with credit := u.credit + app.default_user_credit })
      (st.users ++ [newUser]))
    (hI2 : invs2 = update_first (invitation_matches code inviter app.id)
      (fun i => i.consume now) st.invitations) :
    register st app ⟨email, 10, some code, some inviter⟩ now new_id =
      .ok (⟨users3, invs2⟩, new_id) ∧
    invs2.find? (invitation_matches code inviter app.id) =
      some (inv.consume now) ∧
    (inv.consume now).is_used = true ∧
    get_user_by_id users3 inviter app.id =
      some { userA with credit := userA.credit + app.default_user_credit } ∧
    (∀ nid2 now2,
      register ⟨users3, invs2⟩ app ⟨email, 10, some code, some inviter⟩
        now2 nid2 = .error .userExists) ∧
    (∀ nid2 now2,
      register_step ⟨users3, invs2⟩ app ⟨email, 10, some code, some inviter⟩
        now2 nid2 = ⟨users3, invs2⟩) ∧
    (∀ email2 nid2 now2,
      get_user_by_email users3 email2 app = none →
      register ⟨users3, invs2⟩ app ⟨email2, 10, some code, some inviter⟩
          now2 nid2 = .error .invitationCodeUsed ∧
        register_step ⟨users3, invs2⟩ app
          ⟨email2, 10, some code, some inviter⟩ now2 nid2 =
          ⟨users3, invs2⟩) := by
  obtain ⟨hraw, hpreF⟩ := get_user_by_email_none st.users email app hEmail
  unfold get_user_by_id at hA
  have hbonus_praw : ∀ u : User,
      ((fun u : User => u.email == email && u.application_id == app.id)
        ({ u with credit := u.credit + app.default_user_credit })) =
      ((fun u : User => u.email == email && u.application_id == app.id) u) :=
    fun u => rfl
  have hbonus_ppre : ∀ u : User,
      ((fun u : User => u.email == prefixed && u.application_id == app.id)
        ({ u with credit := u.credit + app.default_user_credit })) =
      ((fun u : User => u.email == prefixed && u.application_id == app.id) u) :=
    fun u => rfl
  have hbonus_pid : ∀ u : User,
      ((fun u : User => u.id == inviter && u.application_id == app.id)
        ({ u with credit := u.credit + app.default_user_credit })) =
      ((fun u : User => u.id == inviter && u.application_id == app.id) u) :=
    fun u => rfl
  have hcons_pinv : ∀ i : Invitation,
      invitation_matches code inviter app.id (i.consume now) =
      invitation_matches code inviter app.id i :=
    fun i => rfl
  have hpne : (prefixed == email) = false :=
    beq_eq_false_iff_ne.mpr (prefixed_ne_email email app.package_name
      prefixed hPre)
  have hreg1 : register st app ⟨email, 10, some code, some inviter⟩ now
      new_id = .ok (⟨users3, invs2⟩, new_id) := by
    rw [hU3, hI2, hNew, hCred]
    simp [register, hEmail, hInv, hUsed, hExp, create_user, hPre]
  have hrawU3 : users3.find?
      (fun u => u.email == email && u.application_id == app.id) = none := by
    rw [hU3]
    apply find?_update_first_none _ _ _ hbonus_praw
    rw [List.find?_append, hraw, Option.none_or, hNew]
    simp [List.find?, hpne]
  have hpreU3 : (users3.find?
      (fun u => u.email == prefixed && u.application_id == app.id)).isSome := by
    rw [hU3]
    apply find?_update_first_isSome _ _ _ hbonus_ppre
    rw [List.find?_append, hpreF prefixed hPre, Option.none_or, hNew]
    simp [List.find?]
  obtain ⟨w, hw⟩ := Option.isSome_iff_exists.mp hpreU3
  have hfound : get_user_by_email users3 email app = some w := by
    unfold get_user_by_email
    rw [hrawU3, hPre]
    dsimp only
    rw [hw]
  have hinv2 : invs2.find? (invitation_matches code inviter app.id) =
      some (inv.consume now) := by
    rw [hI2]
    exact find?_update_first_some _ _ hcons_pinv _ _ hInv
  have hretry_same : ∀ nid2 now2,
      register ⟨users3, invs2⟩ app ⟨email, 10, some code, some inviter⟩
        now2 nid2 = .error .userExists := by
    intro nid2 now2
    simp [register, hfound]
  have hretry_fresh : ∀ email2 nid2 now2,
      get_user_by_email users3 email2 app = none →
      register ⟨users3, invs2⟩ app ⟨email2, 10, some code, some inviter⟩
        now2 nid2 = .error .invitationCodeUsed := by
    intro email2 nid2 now2 hnone2
    simp [register, hnone2, hinv2, Invitation.consume]
  refine ⟨hreg1, hinv2, rfl, ?_, hretry_same, ?_, ?_⟩
  · unfold get_user_by_id
    rw [hU3]
    apply find?_update_first_some _ _ hbonus_pid
    rw [List.find?_append, hA, Option.or_some]
  · intro nid2 now2
    rw [register_step, hretry_same nid2 now2]
  · intro email2 nid2 now2 hnone2
    refine ⟨hretry_fresh email2 nid2 now2 hnone2, ?_⟩
    rw [register_step, hretry_fresh email2 nid2 now2 hnone2]

/-- Witness for C4: inviter `A` (credit 5), tenant default 6, invitee
`bob@x.co` with code `INV1`: registration succeeds, the invitation is
consumed, and the inviter ends with credit 11 — the bonus applied exactly
once. -/
theorem register_invite_consumed_once_witness :
    register
        ⟨[⟨"A", "app1", "pkg+a@x.co".toList, 5, false, true, true⟩],
          [⟨"app1", "A", "bob@x.co".toList, "INV1", ⟨0, true⟩, ⟨100, true⟩,
            false, none⟩]⟩
        ⟨"app1", "pkg".toList, 6, true⟩
        ⟨"bob@x.co".toList, 10, some "INV1", some "A"⟩ 1 "B" =
      .ok (⟨[⟨"A", "app1", "pkg+a@x.co".toList, 11, false, true, true⟩,
          ⟨"B", "app1", "pkg+bob@x.co".toList, 12, false, true, false⟩],
        [⟨"app1", "A", "bob@x.co".toList, "INV1", ⟨0, true⟩, ⟨100, true⟩,
          true, some 1⟩]⟩, "B") ∧
    get_user_by_id
        [⟨"A", "app1", "pkg+a@x.co".toList, 11, false, true, true⟩,
          ⟨"B", "app1", "pkg+bob@x.co".toList, 12, false, true, false⟩]
        "A" "app1" =
      some ⟨"A", "app1", "pkg+a@x.co".toList, 11, false, true, true⟩ :=
  ⟨(register_invite_consumed_once
      ⟨[⟨"A", "app1", "pkg+a@x.co".toList, 5, false, true, true⟩],
        [⟨"app1", "A", "bob@x.co".toList, "INV1", ⟨0, true⟩, ⟨100, true⟩,
          false, none⟩]⟩
      ⟨"app1", "pkg".toList, 6, true⟩ "bob@x.co".toList
      "pkg+bob@x.co".toList "INV1" "A" "B" 1
      ⟨"A", "app1", "pkg+a@x.co".toList, 5, false, true, true⟩
      ⟨"app1", "A", "bob@x.co".toList, "INV1", ⟨0, true⟩, ⟨100, true⟩,
        false, none⟩ 12
      ⟨"B", "app1", "pkg+bob@x.co".toList, 12, false, true, false⟩
      [⟨"A", "app1", "pkg+a@x.co".toList, 11, false, true, true⟩,
        ⟨"B", "app1", "pkg+bob@x.co".toList, 12, false, true, false⟩]
      [⟨"app1", "A", "bob@x.co".toList, "INV1", ⟨0, true⟩, ⟨100, true⟩,
        true, some 1⟩]
      rfl rfl rfl (by decide) rfl rfl (by decide) rfl (by decide)
      (by decide)).1,
   (register_invite_consumed_once
      ⟨[⟨"A", "app1", "pkg+a@x.co".toList, 5, false, true, true⟩],
        [⟨"app1", "A", "bob@x.co".toList, "INV1", ⟨0, true⟩, ⟨100, true⟩,
          false, none⟩]⟩
      ⟨"app1", "pkg".toList, 6, true⟩ "bob@x.co".toList
      "pkg+bob@x.co".toList "INV1" "A" "B" 1
      ⟨"A", "app1", "pkg+a@x.co".toList, 5, false, true, true⟩
      ⟨"app1", "A", "bob@x.co".toList, "INV1", ⟨0, true⟩, ⟨100, true⟩,
        false, none⟩ 12
      ⟨"B", "app1", "pkg+bob@x.co".toList, 12, false, true, false⟩
      [⟨"A", "app1", "pkg+a@x.co".toList, 11, false, true, true⟩,
        ⟨"B", "app1", "pkg+bob@x.co".toList, 12, false, true, false⟩]
      [⟨"app1", "A", "bob@x.co".toList, "INV1", ⟨0, true⟩, ⟨100, true⟩,
        true, some 1⟩]
      rfl rfl rfl (by decide) rfl rfl (by decide) rfl (by decide)
      (by decide)).2.2.2.1⟩

/-- Witness for C8: a fresh store, tenants `A`/`B` with packages `pa`/`pb`,
real email `u@x.co` registered under both. -/
theorem register_same_email_two_tenants_witness :
    register ⟨[⟨"ua", "A", "pa+u@x.co".toList, 3, false, true, false⟩], []⟩
        ⟨"A", "pa".toList, 3, true⟩ ⟨"u@x.co".toList, 10, none, none⟩ 1
        "ub" =
      .error .userExists ∧
    register ⟨[⟨"ua", "A", "pa+u@x.co".toList, 3, false, true, false⟩], []⟩
        ⟨"B", "pb".toList, 4, true⟩ ⟨"u@x.co".toList, 10, none, none⟩ 2
        "ub2" =
      .ok (⟨[⟨"ua", "A", "pa+u@x.co".toList, 3, false, true, false⟩,
          ⟨"ub2", "B", "pb+u@x.co".toList, 4, false, true, false⟩], []⟩,
        "ub2") :=
  ⟨(register_same_email_two_tenants ⟨[], []⟩ ⟨"A", "pa".toList, 3, true⟩
      ⟨"B", "pb".toList, 4, true⟩ "u@x.co".toList "pa+u@x.co".toList
      "pb+u@x.co".toList "ua" 0 (by decide) (by decide) rfl rfl rfl
      rfl).2.1 "ub" 1,
   (register_same_email_two_tenants ⟨[], []⟩ ⟨"A", "pa".toList, 3, true⟩
      ⟨"B", "pb".toList, 4, true⟩ "u@x.co".toList "pa+u@x.co".toList
      "pb+u@x.co".toList "ua" 0 (by decide) (by decide) rfl rfl rfl
      rfl).2.2.2.1 "ub2" 2⟩

end Backend
